import Mathlib

/-!
Verification of the camera-capture and photo-challenge core of the
fiber-monster-match repository, embedded shallowly in Lean.

Sources:
- src/src/pages/PhotoChallenge.tsx (handlePhotoTaken lines 150-257,
  getProgressPercentage lines 264-269, canTakePhotoToday lines 271-277) and
  the upsert variants in src/unnamed/part_003 and part_004, whose arithmetic
  is identical: the challenge progress engine.
- src/src/hooks/useCamera.tsx, first variant (requestPermission lines 22-149,
  stopCamera lines 151-171, switchCamera lines 173-217, capturePhoto lines
  219-281): stream lifecycle, constraint fallback, capture checks.
- src/unnamed/part_006, second variant (the hardened rewrite of the same
  hook): the 10 second metadata timeout (lines 287-295) and the capturePhoto
  with the full check chain (lines 523-604).

Calendar dates (date-only ISO strings in the source) are modelled as Nat day
indices; the source compares them only for equality, and day ordering mirrors
the lexicographic ordering of the date strings. JS numbers that matter only
as counters are Nat; video currentTime and JPEG quality are rationals.
-/

/-- A user_challenge_progress row, as read and written by PhotoChallenge.tsx
(interface Progress, lines 33-40; the id column is not part of the
computation and is omitted). last_photo_date is nullable in the database,
hence Option. -/
structure ChallengeProgress where
  current_streak : Nat
  longest_streak : Nat
  total_photos : Nat
  points_earned : Nat
  last_photo_date : Option Nat
deriving DecidableEq, Repr

/-- The challenge descriptor fields that enter the progress computation
(interface Challenge, lines 23-31; only target_days is read by
getProgressPercentage). -/
structure Challenge where
  target_days : Nat
deriving DecidableEq, Repr

/-- The progress update performed by handlePhotoTaken
(PhotoChallenge.tsx lines 182-218): newStreak, newTotal and newPoints are
computed from the previous record alone, then either the existing row is
updated (longest_streak := Math.max(newStreak, previous.longest_streak)) or a
fresh row is inserted (longest_streak := newStreak); the two branches agree
with the single expression max newStreak (previous longest or 0), which is
also literally the upsert form in src/unnamed/part_003 lines 181-191. No
field of the previous record other than the four counters is read; in
particular last_photo_date is never compared with captureDate here. -/
def applyCapture (previous : Option ChallengeProgress) (captureDate : Nat) :
    ChallengeProgress :=
  let newStreak := match previous with
    | some p => p.current_streak + 1
    | none => 1
  let newTotal := match previous with
    | some p => p.total_photos + 1
    | none => 1
  let newPoints := match previous with
    | some p => p.points_earned + 10
    | none => 10
  { current_streak := newStreak
    longest_streak := max newStreak (match previous with
      | some p => p.longest_streak
      | none => 0)
    total_photos := newTotal
    points_earned := newPoints
    last_photo_date := some captureDate }

/-- The Light award computed by handlePhotoTaken after the progress write
(PhotoChallenge.tsx lines 220-226): basePoints = 15, bonusPoints = 10 iff the
new total is 1, streakBonus = min(newStreak * 2, 20) iff newStreak > 1. This
amount goes to the separate awardLight collaborator, not to the persisted
points_earned column. -/
def totalLightEarned (previous : Option ChallengeProgress) : Nat :=
  let newStreak := match previous with
    | some p => p.current_streak + 1
    | none => 1
  let newTotal := match previous with
    | some p => p.total_photos + 1
    | none => 1
  let isFirstPhoto := newTotal == 1
  let basePoints := 15
  let bonusPoints := if isFirstPhoto then 10 else 0
  let streakBonus := if newStreak > 1 then min (newStreak * 2) 20 else 0
  basePoints + bonusPoints + streakBonus

/-- canTakePhotoToday (PhotoChallenge.tsx lines 271-277): true when there is
no progress row, or its last_photo_date is null, or that date differs from
today. This is the only same-day guard in the code; it feeds the disabled
attribute of the Take Photo button. -/
def canTakePhotoToday (progress : Option ChallengeProgress) (today : Nat) :
    Bool :=
  match progress with
  | none => true
  | some p =>
    match p.last_photo_date with
    | none => true
    | some d => d != today

/-- getProgressPercentage (PhotoChallenge.tsx lines 264-269):
Math.min((total_photos / target_days) * 100, 100), and 0 when the challenge
or the progress row is missing. JS numbers are modelled as rationals. -/
def getProgressPercentage (challenge : Option Challenge)
    (progress : Option ChallengeProgress) : ℚ :=
  match challenge, progress with
  | some c, some p =>
    min (((p.total_photos : ℚ) / (c.target_days : ℚ)) * 100) 100
  | _, _ => 0

/-- The longest_streak of the previous record, or 0 when there is none. -/
def prevLongest (previous : Option ChallengeProgress) : Nat :=
  match previous with
  | some p => p.longest_streak
  | none => 0

/-- Fixture: a record whose last capture was day 10 (streak 3, best 5,
4 photos, 80 points). -/
def recDay10 : ChallengeProgress :=
  { current_streak := 3, longest_streak := 5, total_photos := 4,
    points_earned := 80, last_photo_date := some 10 }

/-- Fixture: the same counters with last capture on day 13. -/
def recDay13 : ChallengeProgress :=
  { current_streak := 3, longest_streak := 5, total_photos := 4,
    points_earned := 80, last_photo_date := some 13 }

/-- Fixture: a 30 photo record for the percentage witness. -/
def recThirty : ChallengeProgress :=
  { current_streak := 1, longest_streak := 1, total_photos := 30,
    points_earned := 10, last_photo_date := some 30 }

/-- Fixture: a 31 photo record for the percentage witness. -/
def recThirtyOne : ChallengeProgress :=
  { current_streak := 2, longest_streak := 2, total_photos := 31,
    points_earned := 20, last_photo_date := some 31 }

/-- Fixture: a 30 day challenge. -/
def challenge30 : Challenge := { target_days := 30 }

/-!
Stream lifecycle (useCamera.tsx, first variant). Streams are identified by
Nat tags; a state records the stream currently referenced by streamRef
(held) and the streams whose tracks have not all been stopped (live). Each
hook operation is rendered as the list of states the system passes through,
one entry per observable step; getUserMedia granting a stream and the
immediately following synchronous streamRef assignment form one step, since
no other camera operation can interleave between them in the single-threaded
event loop.
-/

/-- The resource state of the camera hook: streamRef content and the set of
streams with unstopped tracks. -/
structure CamSt where
  held : Option Nat
  live : List Nat
deriving DecidableEq, Repr

/-- The state on mount: streamRef.current = null, nothing open. -/
def camInit : CamSt := { held := none, live := [] }

/-- getUserMedia grants stream sid and streamRef.current is set to it. -/
def openAs (s : CamSt) (sid : Nat) : CamSt :=
  { held := some sid, live := sid :: s.live }

/-- stream.getTracks().forEach(track => track.stop()) on stream sid. -/
def stopTracksOf (s : CamSt) (sid : Nat) : CamSt :=
  { s with live := s.live.filter (fun x => x != sid) }

/-- Stop the held stream and null streamRef (the body of stopCamera, lines
154-160, and the stop-any-existing-stream prologue of requestPermission,
lines 31-35). Does nothing when no stream is held. -/
def clearHeld (s : CamSt) : CamSt :=
  match s.held with
  | some sid => { stopTracksOf s sid with held := none }
  | none => s

/-- The outcome of the getUserMedia negotiation inside one requestPermission
call: granted directly; failed with OverconstrainedError and the single
basic-constraints retry granted; failed with OverconstrainedError and the
retry failed too; failed with any other error (no retry). -/
inductive ReqOutcome where
  | granted (sid : Nat)
  | overThenGranted (sid : Nat)
  | overThenDenied
  | denied
deriving DecidableEq, Repr

/-- One call into the hook: requestPermission with its getUserMedia outcome,
stopCamera, or switchCamera with its outcome and the id of the stream a
successful switch obtains. -/
inductive CamOp where
  | request (o : ReqOutcome)
  | stop
  | switch (ok : Bool) (sid : Nat)
deriving DecidableEq, Repr

/-- requestPermission (lines 22-149): first stop and null any existing
stream, then getUserMedia; a grant (directly or through the one fallback
retry) installs the new stream, a failure leaves nothing held. -/
def requestStates (s : CamSt) (o : ReqOutcome) : List CamSt :=
  let s1 := clearHeld s
  match o with
  | .granted n => [s1, openAs s1 n]
  | .overThenGranted n => [s1, openAs s1 n]
  | .overThenDenied => [s1]
  | .denied => [s1]

/-- stopCamera (lines 151-171): stop every track of the held stream, null
streamRef; a no-op on the stream state when nothing is held. -/
def stopStates (s : CamSt) : List CamSt := [clearHeld s]

/-- switchCamera (lines 173-217): returns immediately when no stream is held;
otherwise stops the current tracks (streamRef is not nulled) and requests the
opposite-facing stream; on failure the stopped stream stays referenced. -/
def switchStates (s : CamSt) (ok : Bool) (n : Nat) : List CamSt :=
  match s.held with
  | none => [s]
  | some sid =>
    let s1 := stopTracksOf s sid
    if ok then [s1, openAs s1 n] else [s1]

/-- The states an operation passes through. -/
def opStates (s : CamSt) : CamOp → List CamSt
  | .request o => requestStates s o
  | .stop => stopStates s
  | .switch ok n => switchStates s ok n

/-- The state in which an operation leaves the hook. -/
def finalSt (s : CamSt) (op : CamOp) : CamSt := (opStates s op).getLastD s

/-- Every intermediate state of a call sequence, in order. -/
def traceStates : CamSt → List CamOp → List CamSt
  | _, [] => []
  | s, op :: ops => opStates s op ++ traceStates (finalSt s op) ops

/-- The resource invariant: at most one stream has unstopped tracks, and a
live stream is the held one. -/
def CamInv (s : CamSt) : Prop :=
  s.live.length ≤ 1 ∧ ∀ x ∈ s.live, s.held = some x

/-!
Constraint-fallback policy of requestPermission (useCamera.tsx lines
100-148): the error names that trigger the single basic-constraints retry.
-/

/-- The DOMException names distinguished by the catch block of
requestPermission (lines 105-139). -/
inductive MediaError where
  | notFound
  | notAllowed
  | notSupported
  | notReadable
  | overconstrained
  | constraintNotSatisfied
  | other
deriving DecidableEq, Repr

/-- One getUserMedia attempt: granted, or rejected with an error name. -/
inductive AttemptResult where
  | ok
  | err (e : MediaError)
deriving DecidableEq, Repr

/-- Whether a first attempt failed with OverconstrainedError or
ConstraintNotSatisfiedError, the only branch that retries (line 113). -/
def isOverconstrained : AttemptResult → Bool
  | .err .overconstrained => true
  | .err .constraintNotSatisfied => true
  | _ => false

/-- What one requestPermission call did: how many getUserMedia calls it made,
whether the second used the minimal constraints (video: facingMode only, no
width/height hints, line 118-121), and the state it set (lines 91-97,
128-134, 141-147). surfacedError is true when the call ends by reporting an
error message to the UI state. -/
structure ReqResult where
  attempts : Nat
  usedBasicConstraints : Bool
  isActive : Bool
  hasPermission : Bool
  surfacedError : Bool
deriving DecidableEq, Repr

/-- requestPermission (lines 22-149) as a function of its first getUserMedia
outcome and, where reached, the fallback outcome: a direct grant activates
with one attempt; an over-constrained failure makes exactly one more attempt
with basic constraints and only surfaces an error if that also fails; every
other failure surfaces its error with no retry. -/
def requestPermission (first fallback : AttemptResult) : ReqResult :=
  match first with
  | .ok =>
    { attempts := 1, usedBasicConstraints := false, isActive := true,
      hasPermission := true, surfacedError := false }
  | .err e =>
    if e = .overconstrained ∨ e = .constraintNotSatisfied then
      match fallback with
      | .ok =>
        { attempts := 2, usedBasicConstraints := true, isActive := true,
          hasPermission := true, surfacedError := false }
      | .err _ =>
        { attempts := 2, usedBasicConstraints := true, isActive := false,
          hasPermission := false, surfacedError := true }
    else
      { attempts := 1, usedBasicConstraints := false, isActive := false,
        hasPermission := false, surfacedError := true }

/-!
Frame capture. The observable inputs of one capturePhoto call.
-/

/-- The video element and stream as capturePhoto reads them: element and
stream presence, readyState, natural dimensions, paused/ended flags,
currentTime, canvas 2d context availability, whether the probed first pixel
is all zero, and the byte size of the blob toBlob produces (0 for a null or
empty blob). -/
structure VideoState where
  hasVideoElement : Bool
  hasStream : Bool
  readyState : Nat
  videoWidth : Nat
  videoHeight : Nat
  paused : Bool
  ended : Bool
  currentTime : ℚ
  contextAvailable : Bool
  firstPixelAllZero : Bool
  encodedSize : Nat
deriving DecidableEq, Repr

/-- The distinct rejection kinds of capturePhoto, one per reject message. -/
inductive CaptureError where
  | cameraUnavailable
  | notReady
  | noDimensions
  | streamStopped
  | noTimeData
  | noContext
  | emptyFrame
  | emptyEncoding
deriving DecidableEq, Repr

/-- A successful capture: the canvas dimensions (set to the natural video
dimensions), the encoding mime and quality passed to toBlob, and the blob
size. -/
structure Photo where
  width : Nat
  height : Nat
  mime : String
  quality : ℚ
  size : Nat
deriving DecidableEq, Repr

/-- capturePhoto of useCamera.tsx, first variant (lines 219-281): checks
element and stream presence, readyState at least 2, non-zero dimensions,
canvas context; draws and encodes as image/jpeg at quality 0.92; a null or
zero-byte blob rejects. There is no paused/ended check in this variant. -/
def capturePhoto (v : VideoState) : Except CaptureError Photo :=
  if !v.hasVideoElement || !v.hasStream then .error .cameraUnavailable
  else if v.readyState < 2 then .error .notReady
  else if v.videoWidth == 0 || v.videoHeight == 0 then .error .noDimensions
  else if !v.contextAvailable then .error .noContext
  else if v.encodedSize == 0 then .error .emptyEncoding
  else .ok
    { width := v.videoWidth, height := v.videoHeight, mime := "image/jpeg",
      quality := 92 / 100, size := v.encodedSize }

/-- capturePhoto of the hardened hook variant (src/unnamed/part_006, lines
523-604): the same chain extended, in order, with a paused/ended check, a
currentTime check, and a first-pixel probe after drawing; encoding is
image/jpeg at quality 0.92 and a null or zero-byte blob rejects. -/
def capturePhotoFull (v : VideoState) : Except CaptureError Photo :=
  if !v.hasVideoElement || !v.hasStream then .error .cameraUnavailable
  else if v.readyState < 2 then .error .notReady
  else if v.videoWidth == 0 || v.videoHeight == 0 then .error .noDimensions
  else if v.paused || v.ended then .error .streamStopped
  else if v.currentTime == 0 then .error .noTimeData
  else if !v.contextAvailable then .error .noContext
  else if v.firstPixelAllZero then .error .emptyFrame
  else if v.encodedSize == 0 then .error .emptyEncoding
  else .ok
    { width := v.videoWidth, height := v.videoHeight, mime := "image/jpeg",
      quality := 92 / 100, size := v.encodedSize }

/-- Fixture: a healthy stream whose render surface is paused. -/
def pausedVideo : VideoState :=
  { hasVideoElement := true, hasStream := true, readyState := 4,
    videoWidth := 720, videoHeight := 1280, paused := true, ended := false,
    currentTime := 5, contextAvailable := true, firstPixelAllZero := false,
    encodedSize := 4096 }

/-!
The wait for the first decodable frame inside requestPermission.
-/

/-- How the metadata wait ends. -/
inductive WaitResult where
  | loaded
  | playFailed
  | videoError
  | timedOut
deriving DecidableEq, Repr

/-- The metadata wait of useCamera.tsx, first variant (lines 54-88): resolve
on loadedmetadata (immediately when readyState is already at least 1), reject
on a video error event, whichever fires first; there is no timer, so when
neither event ever fires the promise never settles, modelled as none.
metaAt and errAt give the times (ms) at which the two events fire, when they
ever do. -/
def metadataWait (readyState : Nat) (metaAt errAt : Option Nat) :
    Option (Nat × WaitResult) :=
  if 1 ≤ readyState then some (0, .loaded)
  else
    match metaAt, errAt with
    | none, none => none
    | some m, none => some (m, .loaded)
    | none, some e => some (e, .videoError)
    | some m, some e =>
      if m ≤ e then some (m, .loaded) else some (e, .videoError)

/-- The first callback to find the resolved flag unset wins: an available
candidate settling strictly before the current best replaces it. -/
def firstSettled (c : Option (Nat × WaitResult)) (best : Nat × WaitResult) :
    Nat × WaitResult :=
  match c with
  | some x => if x.1 < best.1 then x else best
  | none => best

/-- When the loadedmetadata path would settle: immediately when readyState is
already at least 1, else at the event time; play success resolves after the
500 ms stabilize timer, play failure rejects at once. -/
def resolveCandidate (readyState : Nat) (metaAt : Option Nat)
    (playOk : Bool) : Option (Nat × WaitResult) :=
  (if 1 ≤ readyState then some 0 else metaAt).map fun m =>
    if playOk then (m + 500, WaitResult.loaded) else (m, WaitResult.playFailed)

/-- When the video error event would reject, when it ever fires. -/
def errCandidate (errAt : Option Nat) : Option (Nat × WaitResult) :=
  errAt.map fun e => (e, WaitResult.videoError)

/-- The metadata wait of the hardened variant (src/unnamed/part_006, lines
230-295): a resolved flag is set by the first of three callbacks: the
loadedmetadata handler, which plays the video and resolves 500 ms later
(or rejects at once when play fails); the error handler, which rejects; and
a timer registered at the start that rejects with a timeout message at
10000 ms. The pair returned is the settling time and outcome; ties go to the
candidate nearer the end of the chain, the timeout timer being registered
first. -/
def metadataWaitTimed (readyState : Nat) (metaAt errAt : Option Nat)
    (playOk : Bool) : Nat × WaitResult :=
  firstSettled (resolveCandidate readyState metaAt playOk)
    (firstSettled (errCandidate errAt) (10000, .timedOut))

/-!
The degraded file-upload path of the capture screen.
-/

/-- The fields of the chosen File that handleFileUpload reads. -/
structure UploadFile where
  mimeType : String
  size : Nat
  content : List Nat
deriving DecidableEq, Repr

/-- The Blob handed to onPhotoTaken: new Blob([file], with type set to
file.type, carries the file bytes and mime type. -/
structure UploadBlob where
  content : List Nat
  mimeType : String
deriving DecidableEq, Repr

/-- handleFileUpload (src/src/components/CameraCapture.tsx lines 104-151):
no chosen file returns; a mime type that does not start with image/ returns;
a size above 10 * 1024 * 1024 bytes returns; otherwise the file is wrapped in
a blob and onPhotoTaken is awaited once. The returned option is the argument
of that single invocation, none when the handler returned without calling
it. -/
def handleFileUpload (file : Option UploadFile) : Option UploadBlob :=
  match file with
  | none => none
  | some f =>
    if !(f.mimeType.startsWith ("image/")) then none
    else if 10 * 1024 * 1024 < f.size then none
    else some { content := f.content, mimeType := f.mimeType }

/-!
Theorems. One main theorem per claim C1-C10, with counterexamples for the
claims the code refutes and witnesses for the theorems with hypotheses.
-/

/-- C1 counterexample: previous record captured on day 10 with streak 3, next
capture on day 13 (a gap of three calendar days, so at least 2). The claim
says the streak resets to 1; applyCapture returns 3 + 1 = 4, because the code
never compares last_photo_date with the capture date. -/
theorem applyCapture_gap_not_reset :
    10 + 2 ≤ 13 ∧ (applyCapture (some recDay10) 13).current_streak = 4 := by
  decide

/-- C1 (amended): applyCapture sets the new streak to previous.current_streak
+ 1 whenever a previous record exists, regardless of the calendar gap between
last_photo_date and captureDate, and to 1 exactly when there is no previous
record; no date comparison is performed. -/
theorem applyCapture_streak_rule (previous : Option ChallengeProgress)
    (captureDate : Nat) :
    (applyCapture previous captureDate).current_streak =
      match previous with
      | some p => p.current_streak + 1
      | none => 1 := by
  cases previous <;> rfl

/-- C2 counterexample: a record whose last_photo_date is day 13, and a second
capture applied on day 13. The claim says the call is rejected and the record
left unchanged; applyCapture applies the normal update, in particular
total_photos moves from 4 to 5, so the record is changed. -/
theorem applyCapture_same_day_not_rejected :
    (applyCapture (some recDay13) 13) ≠ recDay13 ∧
    (applyCapture (some recDay13) 13).total_photos = 5 := by
  decide

/-- C2 (amended): same-day duplicates are prevented only by the UI gate:
canTakePhotoToday returns false when the record carries todays date, which
disables the capture button. The progress update itself performs no same-day
check: invoked with captureDate equal to last_photo_date it still increments
total_photos, current_streak and points_earned and keeps last_photo_date. -/
theorem applyCapture_same_day_updates (p : ChallengeProgress) (d : Nat)
    (h : p.last_photo_date = some d) :
    canTakePhotoToday (some p) d = false ∧
    (applyCapture (some p) d).total_photos = p.total_photos + 1 ∧
    (applyCapture (some p) d).current_streak = p.current_streak + 1 ∧
    (applyCapture (some p) d).points_earned = p.points_earned + 10 ∧
    (applyCapture (some p) d).last_photo_date = some d := by
  refine ⟨?_, rfl, rfl, rfl, rfl⟩
  simp [canTakePhotoToday, h]

/-- C2 witness: the amended theorem applied at the concrete record used by the
counterexample scenario. -/
theorem applyCapture_same_day_updates_at_13 :
    canTakePhotoToday (some recDay13) 13 = false ∧
    (applyCapture (some recDay13) 13).total_photos =
      recDay13.total_photos + 1 ∧
    (applyCapture (some recDay13) 13).current_streak =
      recDay13.current_streak + 1 ∧
    (applyCapture (some recDay13) 13).points_earned =
      recDay13.points_earned + 10 ∧
    (applyCapture (some recDay13) 13).last_photo_date = some 13 :=
  applyCapture_same_day_updates recDay13 13 rfl

/-- C3 counterexample: a first-ever capture persists points_earned = 10, not
the 25 = 15 + 10 the claim derives from the base/bonus formula; that formula
only feeds the separately awarded Light amount. -/
theorem applyCapture_first_points_not_25 :
    (applyCapture none 1).points_earned = 10 ∧
    (applyCapture none 1).points_earned ≠ 25 ∧
    totalLightEarned none = 25 := by
  decide

/-- C3 (amended): the persisted points column is previous points plus a flat
10 per accepted capture; the base-15 / first-photo-10 / capped-streak formula
computes totalLightEarned, the amount passed to the separate awardLight
collaborator rather than persisted on the progress row. A first-ever capture
yields total_photos = 1, current_streak = 1, longest_streak = 1,
points_earned = 10 and totalLightEarned = 25. -/
theorem applyCapture_points_rule (previous : Option ChallengeProgress)
    (d : Nat) :
    (applyCapture previous d).points_earned =
      (match previous with | some p => p.points_earned | none => 0) + 10 ∧
    totalLightEarned previous =
      15 + (if (applyCapture previous d).total_photos = 1 then 10 else 0) +
        (if 1 < (applyCapture previous d).current_streak then
          min ((applyCapture previous d).current_streak * 2) 20 else 0) ∧
    applyCapture none d =
      { current_streak := 1, longest_streak := 1, total_photos := 1,
        points_earned := 10, last_photo_date := some d } ∧
    totalLightEarned none = 25 := by
  cases previous <;>
    simp [applyCapture, totalLightEarned, Nat.succ_ne_zero]

/-- C8: after every applyCapture the invariant longest_streak at least
current_streak holds, the previous longest never decreases, and the new
longest is exactly max of the previous longest (0 when absent) and the new
streak. -/
theorem applyCapture_longest_invariant (previous : Option ChallengeProgress)
    (d : Nat) :
    (applyCapture previous d).current_streak ≤
      (applyCapture previous d).longest_streak ∧
    prevLongest previous ≤ (applyCapture previous d).longest_streak ∧
    (applyCapture previous d).longest_streak =
      max (prevLongest previous) (applyCapture previous d).current_streak := by
  cases previous <;>
    simp [applyCapture, prevLongest, Nat.max_comm]

/-- C9: with a positive targetDays, getProgressPercentage equals
min 100 (100 * totalPhotos / targetDays), is 0 when either record is missing,
lies in [0, 100], is monotone in totalPhotos, and is exactly 100 once
totalPhotos reaches targetDays. -/
theorem getProgressPercentage_spec (c : Challenge) (p q : ChallengeProgress)
    (htarget : 0 < c.target_days) (hmono : p.total_photos ≤ q.total_photos) :
    getProgressPercentage (some c) (some p) =
      min 100 (100 * (p.total_photos : ℚ) / (c.target_days : ℚ)) ∧
    getProgressPercentage (some c) none = 0 ∧
    getProgressPercentage none (some p) = 0 ∧
    0 ≤ getProgressPercentage (some c) (some p) ∧
    getProgressPercentage (some c) (some p) ≤ 100 ∧
    getProgressPercentage (some c) (some p) ≤
      getProgressPercentage (some c) (some q) ∧
    (c.target_days ≤ p.total_photos →
      getProgressPercentage (some c) (some p) = 100) := by
  have hd : (0 : ℚ) < (c.target_days : ℚ) := by exact_mod_cast htarget
  have hq : ((p.total_photos : ℚ)) ≤ ((q.total_photos : ℚ)) := by
    exact_mod_cast hmono
  refine ⟨?_, rfl, rfl, ?_, ?_, ?_, ?_⟩
  · simp only [getProgressPercentage, min_comm]
    ring_nf
  · exact le_min (by positivity) (by norm_num)
  · exact min_le_right _ _
  · simp only [getProgressPercentage]
    apply min_le_min _ le_rfl
    gcongr
  · intro hsat
    have h1 : (1 : ℚ) ≤ (p.total_photos : ℚ) / (c.target_days : ℚ) :=
      (one_le_div hd).mpr (by exact_mod_cast hsat)
    have h100 :
        (100 : ℚ) ≤ ((p.total_photos : ℚ) / (c.target_days : ℚ)) * 100 := by
      nlinarith
    simp [getProgressPercentage, min_eq_right h100]

/-- C9 witness: the specification applied to a 30-day challenge at 30 and 31
accepted photos. -/
theorem getProgressPercentage_spec_at_30 :
    getProgressPercentage (some challenge30) (some recThirty) =
      min 100 (100 * (recThirty.total_photos : ℚ) /
        (challenge30.target_days : ℚ)) ∧
    getProgressPercentage (some challenge30) none = 0 ∧
    getProgressPercentage none (some recThirty) = 0 ∧
    0 ≤ getProgressPercentage (some challenge30) (some recThirty) ∧
    getProgressPercentage (some challenge30) (some recThirty) ≤ 100 ∧
    getProgressPercentage (some challenge30) (some recThirty) ≤
      getProgressPercentage (some challenge30) (some recThirtyOne) ∧
    (challenge30.target_days ≤ recThirty.total_photos →
      getProgressPercentage (some challenge30) (some recThirty) = 100) :=
  getProgressPercentage_spec challenge30 recThirty recThirtyOne
    (by decide) (by decide)

/-- The invariant pins the live list down: empty, or the single held id. -/
theorem live_eq_nil_or_held (s : CamSt) (h : CamInv s) :
    s.live = [] ∨ ∃ sid, s.held = some sid ∧ s.live = [sid] := by
  obtain ⟨hlen, hmem⟩ := h
  cases hl : s.live with
  | nil => exact Or.inl rfl
  | cons a t =>
    right
    refine ⟨a, hmem a (by simp [hl]), ?_⟩
    cases t with
    | nil => rfl
    | cons b t2 =>
      rw [hl] at hlen
      simp at hlen

/-- Stopping the tracks of the held stream leaves nothing live. -/
theorem stopTracksOf_held_live (s : CamSt) (sid : Nat) (h : CamInv s)
    (hh : s.held = some sid) : (stopTracksOf s sid).live = [] := by
  rcases live_eq_nil_or_held s h with hl | ⟨a, ha, hl⟩
  · simp [stopTracksOf, hl]
  · rw [hh] at ha
    obtain rfl : sid = a := Option.some.inj ha
    simp [stopTracksOf, hl]

/-- Clearing the held stream leaves nothing live. -/
theorem clearHeld_live (s : CamSt) (h : CamInv s) : (clearHeld s).live = [] := by
  cases hh : s.held with
  | none =>
    rcases live_eq_nil_or_held s h with hl | ⟨a, ha, hl⟩
    · simp [clearHeld, hh, hl]
    · rw [hh] at ha
      cases ha
  | some sid => simpa [clearHeld, hh] using stopTracksOf_held_live s sid h hh

/-- A state with no live stream satisfies the invariant. -/
theorem camInv_of_live_nil (s : CamSt) (h : s.live = []) : CamInv s := by
  constructor <;> simp [h]

/-- Opening a stream over an empty live set yields exactly one live stream,
the held one. -/
theorem camInv_openAs (s : CamSt) (n : Nat) (h : s.live = []) :
    CamInv (openAs s n) := by
  constructor <;> simp [openAs, h]

/-- Every intermediate state of one hook operation keeps the invariant. -/
theorem camInv_opStates (s : CamSt) (op : CamOp) (h : CamInv s) :
    ∀ t ∈ opStates s op, CamInv t := by
  intro t ht
  cases op with
  | request o =>
    have h1 := clearHeld_live s h
    cases o <;> simp [opStates, requestStates] at ht <;>
      rcases ht with rfl | rfl
    · exact camInv_of_live_nil _ h1
    · exact camInv_openAs _ _ h1
    · exact camInv_of_live_nil _ h1
    · exact camInv_openAs _ _ h1
    · exact camInv_of_live_nil _ h1
    · exact camInv_of_live_nil _ h1
  | stop =>
    simp [opStates, stopStates] at ht
    subst ht
    exact camInv_of_live_nil _ (clearHeld_live s h)
  | switch ok n =>
    cases hh : s.held with
    | none =>
      simp [opStates, switchStates, hh] at ht
      subst ht
      exact h
    | some sid =>
      have h1 := stopTracksOf_held_live s sid h hh
      cases ok with
      | true =>
        simp [opStates, switchStates, hh] at ht
        rcases ht with rfl | rfl
        · exact camInv_of_live_nil _ h1
        · exact camInv_openAs _ _ h1
      | false =>
        simp [opStates, switchStates, hh] at ht
        subst ht
        exact camInv_of_live_nil _ h1

/-- The final state of an operation is among its intermediate states. -/
theorem finalSt_mem (s : CamSt) (op : CamOp) :
    finalSt s op ∈ opStates s op := by
  cases op with
  | request o => cases o <;> simp [finalSt, opStates, requestStates]
  | stop => simp [finalSt, opStates, stopStates]
  | switch ok n =>
    cases hh : s.held with
    | none => simp [finalSt, opStates, switchStates, hh]
    | some sid => cases ok <;> simp [finalSt, opStates, switchStates, hh]

/-- Every state along a call sequence keeps the invariant. -/
theorem camInv_traceStates (ops : List CamOp) (s : CamSt) (h : CamInv s) :
    ∀ t ∈ traceStates s ops, CamInv t := by
  induction ops generalizing s with
  | nil =>
    intro t ht
    simp [traceStates] at ht
  | cons op ops ih =>
    intro t ht
    simp only [traceStates, List.mem_append] at ht
    rcases ht with ht | ht
    · exact camInv_opStates s op h t ht
    · exact ih (finalSt s op)
        (camInv_opStates s op h _ (finalSt_mem s op)) t ht

/-- Clearing the held stream twice is the same as once. -/
theorem clearHeld_idem (s : CamSt) : clearHeld (clearHeld s) = clearHeld s := by
  cases hh : s.held <;> simp [clearHeld, hh, stopTracksOf]

/-- C4: for every sequence of requestPermission, stopCamera and switchCamera
calls from the mounted state, every intermediate state has at most one stream
with unstopped tracks (a new stream is only opened after the tracks of the
held one are stopped); stopCamera leaves no live track, is idempotent, and is
safe when nothing is held. -/
theorem camera_at_most_one_stream (ops : List CamOp) (s : CamSt)
    (h : s ∈ traceStates camInit ops) :
    s.live.length ≤ 1 ∧
    (finalSt s CamOp.stop).live = [] ∧
    finalSt (finalSt s CamOp.stop) CamOp.stop = finalSt s CamOp.stop ∧
    finalSt camInit CamOp.stop = camInit := by
  have hinit : CamInv camInit := by
    constructor <;> simp [camInit]
  have hinv : CamInv s := camInv_traceStates ops camInit hinit s h
  have hfs : finalSt s CamOp.stop = clearHeld s := rfl
  refine ⟨hinv.1, ?_, ?_, rfl⟩
  · rw [hfs]
    exact clearHeld_live s hinv
  · show clearHeld (clearHeld s) = clearHeld s
    exact clearHeld_idem s

/-- C4 witness: the state reached after acquiring stream 0, switching to
stream 1 and stopping; membership in the run is computed. -/
theorem camera_at_most_one_stream_run :
    (CamSt.mk (some 1) [1]).live.length ≤ 1 ∧
    (finalSt (CamSt.mk (some 1) [1]) CamOp.stop).live = [] ∧
    finalSt (finalSt (CamSt.mk (some 1) [1]) CamOp.stop) CamOp.stop =
      finalSt (CamSt.mk (some 1) [1]) CamOp.stop ∧
    finalSt camInit CamOp.stop = camInit :=
  camera_at_most_one_stream
    [CamOp.request (ReqOutcome.granted 0), CamOp.switch true 1, CamOp.stop]
    (CamSt.mk (some 1) [1]) (by decide)

/-- C5 counterexample: a held, metadata-complete, well-dimensioned stream
whose render surface is paused. The claim says capture fails with
StreamStopped; the capturePhoto of useCamera.tsx has no paused/ended check
and succeeds, encoding the frozen frame. -/
theorem capturePhoto_paused_succeeds :
    pausedVideo.paused = true ∧
    capturePhoto pausedVideo = Except.ok
      { width := 720, height := 1280, mime := "image/jpeg",
        quality := 92 / 100, size := 4096 } :=
  ⟨rfl, rfl⟩

/-- C5 (amended): the hardened variant checks exactly as the claim states:
camera unavailable when element or stream is missing; not ready below
readyState 2; no dimensions on a zero width or height; stream stopped on a
paused or ended surface; then (after its additional currentTime, context and
blank-frame probes) success encodes image/jpeg at quality 0.92, with a
zero-byte encoding rejected instead of resolving. -/
theorem capturePhotoFull_check_chain (v : VideoState) :
    (capturePhotoFull v = .error .cameraUnavailable ↔
      v.hasVideoElement = false ∨ v.hasStream = false) ∧
    (capturePhotoFull v = .error .notReady ↔
      v.hasVideoElement = true ∧ v.hasStream = true ∧ v.readyState < 2) ∧
    (capturePhotoFull v = .error .noDimensions ↔
      v.hasVideoElement = true ∧ v.hasStream = true ∧ 2 ≤ v.readyState ∧
      (v.videoWidth = 0 ∨ v.videoHeight = 0)) ∧
    (capturePhotoFull v = .error .streamStopped ↔
      v.hasVideoElement = true ∧ v.hasStream = true ∧ 2 ≤ v.readyState ∧
      v.videoWidth ≠ 0 ∧ v.videoHeight ≠ 0 ∧
      (v.paused = true ∨ v.ended = true)) ∧
    (capturePhotoFull v = .error .emptyEncoding ↔
      v.hasVideoElement = true ∧ v.hasStream = true ∧ 2 ≤ v.readyState ∧
      v.videoWidth ≠ 0 ∧ v.videoHeight ≠ 0 ∧ v.paused = false ∧
      v.ended = false ∧ v.currentTime ≠ 0 ∧ v.contextAvailable = true ∧
      v.firstPixelAllZero = false ∧ v.encodedSize = 0) ∧
    (capturePhotoFull v = Except.ok
        { width := v.videoWidth, height := v.videoHeight,
          mime := "image/jpeg", quality := 92 / 100,
          size := v.encodedSize } ↔
      v.hasVideoElement = true ∧ v.hasStream = true ∧ 2 ≤ v.readyState ∧
      v.videoWidth ≠ 0 ∧ v.videoHeight ≠ 0 ∧ v.paused = false ∧
      v.ended = false ∧ v.currentTime ≠ 0 ∧ v.contextAvailable = true ∧
      v.firstPixelAllZero = false ∧ v.encodedSize ≠ 0) := by
  simp only [capturePhotoFull]
  split_ifs with h1 h2 h3 h4 h5 h6 h7 h8 <;>
    refine ⟨?_, ?_, ?_, ?_, ?_, ?_⟩ <;>
      (try simp_all) <;> intros <;> (first | omega | simp_all)

/-- C6: a direct grant makes one getUserMedia call; a failure named
OverconstrainedError or ConstraintNotSatisfiedError makes exactly one more,
with the minimal constraints, and an error reaches the caller only when that
fallback also failed; every other failure kind surfaces with a single call
and no automatic retry. -/
theorem requestPermission_fallback_once (first fallback : AttemptResult) :
    (requestPermission first fallback).attempts =
      (if isOverconstrained first = true then 2 else 1) ∧
    (requestPermission first fallback).usedBasicConstraints =
      isOverconstrained first ∧
    ((requestPermission first fallback).surfacedError = true ↔
      (isOverconstrained first = true ∧ fallback ≠ .ok) ∨
      (first ≠ .ok ∧ isOverconstrained first = false)) ∧
    (requestPermission first fallback).attempts ≤ 2 := by
  cases first with
  | ok => simp [requestPermission, isOverconstrained]
  | err e =>
    cases e <;> cases fallback <;>
      simp [requestPermission, isOverconstrained]

/-- C7 counterexample: the metadata wait of useCamera.tsx (lines 54-88) has
no timer: with readyState 0 and neither the loadedmetadata nor the error
event ever firing, the promise never settles, so the acquire call hangs
instead of failing with a Timeout after about 10 seconds. -/
theorem metadataWait_can_hang : metadataWait 0 none none = none := rfl

/-- The winning callback never settles later than the current best. -/
theorem firstSettled_fst_le (c : Option (Nat × WaitResult))
    (best : Nat × WaitResult) : (firstSettled c best).1 ≤ best.1 := by
  cases c with
  | none => exact le_rfl
  | some x =>
    simp only [firstSettled]
    split_ifs with hx
    · exact Nat.le_of_lt hx
    · exact le_rfl

/-- C7 (amended): the hardened variant bounds the wait: every run settles by
10000 ms, and a run in which neither event ever fires rejects with the
timeout outcome exactly at 10000 ms. The useCamera.tsx variant has no such
bound. -/
theorem metadataWaitTimed_bounded (readyState : Nat)
    (metaAt errAt : Option Nat) (playOk pOk : Bool) :
    (metadataWaitTimed readyState metaAt errAt playOk).1 ≤ 10000 ∧
    metadataWaitTimed 0 none none pOk = (10000, WaitResult.timedOut) := by
  constructor
  · exact le_trans (firstSettled_fst_le _ _) (firstSettled_fst_le _ _)
  · cases pOk <;> rfl

/-- C10: the degraded upload path forwards the chosen file to onPhotoTaken
exactly when its mime type starts with image/ and its size is at most
10 * 1024 * 1024 bytes, wrapping its bytes and type in a blob; otherwise it
returns without invoking the callback, and with no file chosen it does
nothing. -/
theorem handleFileUpload_spec (f : UploadFile) :
    (handleFileUpload (some f) =
        some { content := f.content, mimeType := f.mimeType } ↔
      f.mimeType.startsWith ("image/") = true ∧
        f.size ≤ 10 * 1024 * 1024) ∧
    (handleFileUpload (some f) = none ↔
      f.mimeType.startsWith ("image/") = false ∨
        10 * 1024 * 1024 < f.size) ∧
    handleFileUpload none = none := by
  refine ⟨?_, ?_, rfl⟩ <;>
  · simp only [handleFileUpload]
    split_ifs with h1 h2 <;> simp_all
